import Mathlib

/-!
Verification of the iio-sensor-proxy buffered accelerometer driver
(src/drv-iio-buffer-accel.c) against its natural-language specification.

The driver reads triaxial acceleration samples from a nonblocking byte
stream, reassembles fixed-size scan records, decodes them and delivers
readings through a callback. The development below is a shallow
embedding of the C functions: the loop body of read_orientation becomes
a step function on an explicit state, the decode step process_scan
becomes a pure function parameterised by the external channel-extraction
collaborator, and the lifecycle functions become functions on explicit
session/loop state. Machine sizes (gsize) are modelled as Nat: all
quantities involved stay far below 2^64 because every read returns at
most the requested count, which is at most the record size.
-/

namespace IIOBufferAccel

/-- One successful read: the bytes that g_io_channel_read_chars placed in
the scratch buffer. Its length is buff.read_size. -/
abbrev Chunk := List Nat

/-- The state the read loop of read_orientation carries between loop
iterations: the static counter read_size_ctr, and data.data, the latest
captured complete record (none models the NULL pointer). -/
structure ScanState where
  read_size_ctr : Nat
  data : Option Chunk
deriving DecidableEq, Repr

/-- Embedding of one iteration of the read loop in read_orientation
(src/drv-iio-buffer-accel.c lines 88-96), entered after a read with
status G_IO_STATUS_NORMAL delivered the given chunk:
read_size_ctr += buff.read_size;
if (read_size_ctr >= buf_size) read_size_ctr -= buff.read_size;
if (buff.read_size >= buf_size) capture buff as data (freeing any
earlier capture). -/
def readStep (buf_size : Nat) (st : ScanState) (chunk : Chunk) : ScanState :=
  let n := chunk.length
  let ctr1 := st.read_size_ctr + n
  let ctr2 := if buf_size ≤ ctr1 then ctr1 - n else ctr1
  let data2 := if buf_size ≤ n then some chunk else st.data
  { read_size_ctr := ctr2, data := data2 }

/-- Embedding of one invocation of read_orientation, driven by the list
of chunks the channel returns before reporting G_IO_STATUS_AGAIN.
Returns the static counter value left for the next invocation and the
captured record passed to process_scan (none means no callback fires). -/
def read_orientation (buf_size : Nat) (ctr0 : Nat) (chunks : List Chunk) :
    Nat × Option Chunk :=
  let st := chunks.foldl (readStep buf_size) { read_size_ctr := ctr0, data := none }
  (st.read_size_ctr, st.data)

/-- Validity of a sequence of read results within one invocation: each
read returns at most the requested count buf_size - read_size_ctr, where
the counter evolves by readStep. This is guaranteed by the semantics of
g_io_channel_read_chars. -/
def validReads (buf_size : Nat) : Nat → List Chunk → Bool
  | _, [] => true
  | ctr, c :: cs =>
    decide (c.length ≤ buf_size - ctr) &&
      validReads buf_size (readStep buf_size { read_size_ctr := ctr, data := none } c).read_size_ctr cs

/-- Validity of the read results of a whole sequence of invocations,
threading the static counter through read_orientation. -/
def validInvs (buf_size : Nat) : Nat → List (List Chunk) → Bool
  | _, [] => true
  | ctr, inv :: rest =>
    validReads buf_size ctr inv &&
      validInvs buf_size (read_orientation buf_size ctr inv).1 rest

/-- Running a sequence of read_orientation invocations from a starting
counter value: final counter, and per invocation the record delivered to
the callback (none when no callback fired that invocation). -/
def runInvocations (buf_size : Nat) : Nat → List (List Chunk) → Nat × List (Option Chunk)
  | ctr, [] => (ctr, [])
  | ctr, inv :: rest =>
    let r := read_orientation buf_size ctr inv
    let rec2 := runInvocations buf_size r.1 rest
    (rec2.1, r.2 :: rec2.2)

/-- Number of callback invocations in a run: one per invocation whose
captured record is present. -/
def callbackCount (results : List (Option Chunk)) : Nat :=
  results.countP (fun o => o.isSome)

/-- The value of the static counter at every invocation boundary: on
entry of each invocation and on exit of the last. -/
def ctrTrace (buf_size : Nat) : Nat → List (List Chunk) → List Nat
  | ctr, [] => [ctr]
  | ctr, inv :: rest => ctr :: ctrTrace buf_size (read_orientation buf_size ctr inv).1 rest

theorem readStep_ctr_lt (buf_size : Nat) (st : ScanState) (chunk : Chunk)
    (h : st.read_size_ctr < buf_size) :
    (readStep buf_size st chunk).read_size_ctr < buf_size := by
  unfold readStep
  dsimp only
  split <;> omega

theorem foldl_readStep_ctr_lt (buf_size : Nat) (chunks : List Chunk) (st : ScanState)
    (h : st.read_size_ctr < buf_size) :
    (chunks.foldl (readStep buf_size) st).read_size_ctr < buf_size := by
  induction chunks generalizing st with
  | nil => exact h
  | cons c cs ih => exact ih _ (readStep_ctr_lt buf_size st c h)

theorem read_orientation_ctr_lt (buf_size ctr : Nat) (chunks : List Chunk)
    (h : ctr < buf_size) : (read_orientation buf_size ctr chunks).1 < buf_size :=
  foldl_readStep_ctr_lt buf_size chunks _ h

/-- C3: the partial-record state satisfies 0 ≤ accumulated < recordSize
at every invocation boundary: for every record size S > 0 and every
sequence of read results across any number of Scan Reader invocations,
every value of the static counter read_size_ctr observed between
invocations (entry of each invocation and exit of the last) is below S.
The lower bound holds because the counter is a natural number and the
decrement in the loop exactly undoes the preceding increment. -/
theorem c3_counter_invariant (S : Nat) (invs : List (List Chunk)) (hS : 0 < S) :
    ∀ c ∈ ctrTrace S 0 invs, c < S := by
  suffices h : ∀ (ctr : Nat), ctr < S → ∀ c ∈ ctrTrace S ctr invs, c < S from h 0 hS
  induction invs with
  | nil =>
    intro ctr hctr c hc
    simp only [ctrTrace, List.mem_singleton] at hc
    omega
  | cons inv rest ih =>
    intro ctr hctr c hc
    simp only [ctrTrace, List.mem_cons] at hc
    rcases hc with rfl | hc
    · exact hctr
    · exact ih _ (read_orientation_ctr_lt S ctr inv hctr) c hc

theorem c3_counter_invariant_witness :
    2 ∈ ctrTrace 3 0 [[[1]], [[1], [1]]] ∧ 2 < 3 :=
  ⟨by decide, c3_counter_invariant 3 [[[1]], [[1], [1]]] (by decide) 2 (by decide)⟩

/-- C1: evaluation of the code at a failing input. With record size
S = 2, two invocations each delivering one valid 1-byte read (sizes sum
to exactly S) produce zero callbacks, not the one callback the claim
requires on the invocation that reads the S-th byte. The loop reverts
read_size_ctr instead of resetting it, and captures a record only when
a single read returns buf_size bytes, so cross-read reassembly never
delivers a record. -/
theorem c1_sum_to_record_size_no_callback :
    validInvs 2 0 [[[7]], [[9]]] = true
      ∧ (([[[7]], [[9]]] : List (List Chunk)).map
          (fun inv => (inv.map List.length).sum)).sum = 2
      ∧ callbackCount (runInvocations 2 0 [[[7]], [[9]]]).2 = 0 := by
  decide

/-- C2: evaluation of the code at a failing input. With record size 4
and accumulated count 1, a valid 3-byte read makes the accumulated
count reach the record size, yet the code leaves read_size_ctr at 1
(the line read_size_ctr -= buff.read_size undoes the preceding
increment) instead of resetting it to 0 as the claim states. -/
theorem c2_counter_not_reset :
    4 ≤ 1 + ([5, 6, 7] : Chunk).length
      ∧ ([5, 6, 7] : Chunk).length ≤ 4 - 1
      ∧ (readStep 4 { read_size_ctr := 1, data := none } [5, 6, 7]).read_size_ctr = 1 := by
  decide

/-- C4: evaluation of the code at a failing input. With record size
S = 2, a single invocation delivering two valid 1-byte reads
accumulates a complete record in the sense of the specification (the
read sizes sum to S), yet the code captures nothing (data.data stays
NULL) and no callback fires: a record is captured only when one read
returns at least buf_size bytes at once. -/
theorem c4_accumulated_record_no_callback :
    validReads 2 0 [[4], [5]] = true
      ∧ (([[4], [5]] : List Chunk).map List.length).sum = 2
      ∧ (read_orientation 2 0 [[4], [5]]).2 = none := by
  decide

/-- Modelled from the spec: the result of one call to the Buffer
Session decode operation process_scan_1 (declared in iio-buffer-utils.h;
its definition is not part of the analysed source). It extracts a named
channel from a raw record: the raw integer value written to *ch_val,
the scale written to *ch_scale, and the presence flag written to
*ch_present. The gdouble scale is modelled over the rationals. -/
structure Extraction where
  value : Int
  scale : ℚ
  present : Bool
deriving DecidableEq, Repr

/-- The readings structure the callback receives (AccelReadings), with
the gdouble axis values modelled over the rationals. -/
structure AccelReadings where
  accel_x : ℚ
  accel_y : ℚ
  accel_z : ℚ
deriving DecidableEq, Repr

/-- Result of process_scan: the readings handed to the callback and
whether the callback was invoked. -/
structure ScanOutcome where
  readings : AccelReadings
  callbackInvoked : Bool
deriving DecidableEq, Repr

set_option linter.unusedVariables false

/-- Embedding of process_scan (src/drv-iio-buffer-accel.c lines 35-62),
parameterised by the channel extraction collaborator. The three
process_scan_1 calls share one local gdouble scale variable, each call
overwriting it, so the value in scale3 (from the in_accel_z extraction)
is the one multiplied into all three axes. x and y are negated before
scaling; z is not. The present flags are received but never examined,
and the callback is invoked unconditionally. -/
def process_scan (extract : String → Extraction) : ScanOutcome :=
  let ex := extract "in_accel_x"
  let scale1 := ex.scale
  let ey := extract "in_accel_y"
  let scale2 := ey.scale
  let ez := extract "in_accel_z"
  let scale3 := ez.scale
  let accel_x := -ex.value
  let accel_y := -ey.value
  let accel_z := ez.value
  { readings :=
      { accel_x := accel_x * scale3
        accel_y := accel_y * scale3
        accel_z := accel_z * scale3 }
    callbackInvoked := true }

/-- C5: decoding a complete record whose channel extractions yield raw
values (x, y, z) = (10, 20, 30) with scale 0.1 produces the reading
(-1.0, -2.0, 3.0): x and y are sign-inverted before scaling, z is not. -/
theorem c5_decode_example (extract : String → Extraction)
    (hx : extract "in_accel_x" = { value := 10, scale := 1 / 10, present := true })
    (hy : extract "in_accel_y" = { value := 20, scale := 1 / 10, present := true })
    (hz : extract "in_accel_z" = { value := 30, scale := 1 / 10, present := true }) :
    (process_scan extract).readings =
      { accel_x := -1, accel_y := -2, accel_z := 3 } := by
  simp only [process_scan, hx, hy, hz]
  norm_num

/-- Concrete extraction table for the C5 witness. -/
def extractC5 : String → Extraction
  | "in_accel_x" => { value := 10, scale := 1 / 10, present := true }
  | "in_accel_y" => { value := 20, scale := 1 / 10, present := true }
  | "in_accel_z" => { value := 30, scale := 1 / 10, present := true }
  | _ => { value := 0, scale := 0, present := false }

theorem c5_decode_example_witness :
    (process_scan extractC5).readings =
      { accel_x := -1, accel_y := -2, accel_z := 3 } :=
  c5_decode_example extractC5 rfl rfl rfl

/-- C10: for every extraction collaborator, the scale multiplied into
all three axes is the one produced by the last extraction (the
in_accel_z channel), because the three calls overwrite a single shared
scale variable; and the callback is invoked regardless of the present
flags, so a reading is produced even when a channel extraction reports
the channel absent. -/
theorem c10_shared_scale_and_unconditional_callback
    (extract : String → Extraction) :
    (process_scan extract).readings =
        { accel_x := -(extract "in_accel_x").value * (extract "in_accel_z").scale
          accel_y := -(extract "in_accel_y").value * (extract "in_accel_z").scale
          accel_z := (extract "in_accel_z").value * (extract "in_accel_z").scale }
      ∧ (process_scan extract).callbackInvoked = true := by
  constructor <;> rfl

/-- Model of a udev device descriptor as consumed by the driver: the
subsystem identifier and the sysfs attribute table, each possibly
absent (NULL). -/
structure GUdevDevice where
  subsystem : Option String
  sysfs_attr : String → Option String

/-- Model of g_udev_device_get_subsystem. -/
def g_udev_device_get_subsystem (device : GUdevDevice) : Option String :=
  device.subsystem

/-- Model of g_udev_device_get_sysfs_attr: returns NULL when the
attribute is missing. -/
def g_udev_device_get_sysfs_attr (device : GUdevDevice) (name : String) :
    Option String :=
  device.sysfs_attr name

/-- Model of g_strcmp0: a NULL-tolerant strcmp. NULL compares less than
every string and equal to NULL; otherwise the sign of the string
comparison is returned. -/
def g_strcmp0 : Option String → Option String → Int
  | none, none => 0
  | none, some _ => -1
  | some _, none => 1
  | some a, some b => if a < b then -1 else if a = b then 0 else 1

theorem g_strcmp0_eq_zero_iff (a b : Option String) : g_strcmp0 a b = 0 ↔ a = b := by
  cases a with
  | none => cases b <;> simp [g_strcmp0]
  | some x =>
    cases b with
    | none => simp [g_strcmp0]
    | some y =>
      simp only [g_strcmp0, Option.some.injEq]
      split_ifs with h1 h2
      · simp only [neg_eq_zero, one_ne_zero, false_iff]
        exact ne_of_lt h1
      · simp [h2]
      · simp only [one_ne_zero, false_iff]
        exact h2

/-- Embedding of iio_buffer_accel_discover
(src/drv-iio-buffer-accel.c lines 147-158): reject unless the subsystem
is "iio", then reject unless the sysfs attribute "name" is "accel_3d",
else accept. A pure predicate with no access to the session state. -/
def iio_buffer_accel_discover (device : GUdevDevice) : Bool :=
  if g_strcmp0 (g_udev_device_get_subsystem device) (some "iio") ≠ 0 then false
  else if g_strcmp0 (some "accel_3d") (g_udev_device_get_sysfs_attr device "name") ≠ 0 then false
  else true

/-- C7: discover returns true exactly when the subsystem identifier
equals "iio" and the name attribute equals "accel_3d"; any mismatch,
including a missing (NULL) attribute, yields false rather than an
error. The embedding is a total pure function of the device descriptor
alone, so it has no side effects on the session state. -/
theorem c7_discover_iff (device : GUdevDevice) :
    iio_buffer_accel_discover device = true ↔
      (device.subsystem = some "iio" ∧ device.sysfs_attr "name" = some "accel_3d") := by
  unfold iio_buffer_accel_discover g_udev_device_get_subsystem g_udev_device_get_sysfs_attr
  split_ifs with h1 h2
  · simp only [Bool.false_eq_true, false_iff, not_and]
    intro hs
    exact absurd ((g_strcmp0_eq_zero_iff _ _).mpr hs) h1
  · simp only [Bool.false_eq_true, false_iff, not_and]
    intro _ hn
    exact absurd ((g_strcmp0_eq_zero_iff _ _).mpr hn.symm) h2
  · push_neg at h1 h2
    simp only [true_iff]
    exact ⟨(g_strcmp0_eq_zero_iff _ _).mp h1,
      ((g_strcmp0_eq_zero_iff _ _).mp h2).symm⟩

/-- State of the host main loop as seen by this driver: the ids of the
readiness watches currently registered by the driver, and the next
source id g_io_add_watch will hand out (glib source ids are positive). -/
structure MainLoop where
  sources : List Nat
  next_id : Nat
deriving DecidableEq, Repr

/-- Model of g_source_remove: removes the watch with the given id. -/
def g_source_remove (loop : MainLoop) (id : Nat) : MainLoop :=
  { loop with sources := loop.sources.erase id }

/-- Model of g_io_add_watch: registers a new watch and returns its
positive source id. -/
def g_io_add_watch (loop : MainLoop) : Nat × MainLoop :=
  (loop.next_id, { sources := loop.next_id :: loop.sources, next_id := loop.next_id + 1 })

/-- The polling-relevant part of the driver session: the io_source
field of DrvData (0 when no watch is registered) together with the
main-loop state. -/
structure PollCtx where
  io_source : Nat
  loop : MainLoop
deriving DecidableEq, Repr

/-- Embedding of iio_buffer_accel_set_polling
(src/drv-iio-buffer-accel.c lines 160-177): return unchanged when
enabling while enabled or disabling while disabled; otherwise remove
any existing watch, then add a new one when enabling. -/
def iio_buffer_accel_set_polling (st : PollCtx) (state : Bool) : PollCtx :=
  if 0 < st.io_source ∧ state = true then st
  else if st.io_source = 0 ∧ state = false then st
  else
    let st1 :=
      if st.io_source ≠ 0 then
        { io_source := 0, loop := g_source_remove st.loop st.io_source }
      else st
    if state then
      let r := g_io_add_watch st1.loop
      { io_source := r.1, loop := r.2 }
    else st1

/-- Well-formedness of the polling state between operations: source ids
start at 1, the registered watches are exactly the one recorded in
io_source (none when io_source = 0), and any recorded id was handed out
earlier than next_id. -/
def PollWF (st : PollCtx) : Prop :=
  1 ≤ st.loop.next_id
    ∧ st.loop.sources = (if st.io_source = 0 then [] else [st.io_source])
    ∧ (st.io_source ≠ 0 → st.io_source < st.loop.next_id)

theorem set_polling_true_of_pos (st : PollCtx) (h : 0 < st.io_source) :
    iio_buffer_accel_set_polling st true = st := by
  unfold iio_buffer_accel_set_polling
  rw [if_pos ⟨h, rfl⟩]

theorem set_polling_false_of_zero (st : PollCtx) (h : st.io_source = 0) :
    iio_buffer_accel_set_polling st false = st := by
  unfold iio_buffer_accel_set_polling
  rw [if_neg (by simp), if_pos ⟨h, rfl⟩]

theorem set_polling_true_of_zero (st : PollCtx) (h : st.io_source = 0) :
    iio_buffer_accel_set_polling st true =
      { io_source := st.loop.next_id
        loop := { sources := st.loop.next_id :: st.loop.sources
                  next_id := st.loop.next_id + 1 } } := by
  simp [iio_buffer_accel_set_polling, h, g_io_add_watch]

theorem set_polling_false_of_pos (st : PollCtx) (h : st.io_source ≠ 0) :
    iio_buffer_accel_set_polling st false =
      { io_source := 0, loop := g_source_remove st.loop st.io_source } := by
  simp [iio_buffer_accel_set_polling, h]

theorem set_polling_preserves_wf (st : PollCtx) (h : PollWF st) (state : Bool) :
    PollWF (iio_buffer_accel_set_polling st state) := by
  obtain ⟨h1, h2, h3⟩ := h
  by_cases hz : st.io_source = 0
  · cases state with
    | false =>
      rw [set_polling_false_of_zero st hz]
      exact ⟨h1, h2, h3⟩
    | true =>
      rw [set_polling_true_of_zero st hz]
      refine ⟨?_, ?_, ?_⟩
      · show 1 ≤ st.loop.next_id + 1
        omega
      · show st.loop.next_id :: st.loop.sources =
          if st.loop.next_id = 0 then [] else [st.loop.next_id]
        rw [h2, if_pos hz, if_neg (by omega)]
      · intro _
        show st.loop.next_id < st.loop.next_id + 1
        omega
  · cases state with
    | false =>
      rw [set_polling_false_of_pos st hz]
      refine ⟨h1, ?_, fun hc => absurd rfl hc⟩
      show st.loop.sources.erase st.io_source = if (0 : Nat) = 0 then [] else [0]
      rw [h2, if_neg hz, if_pos rfl, List.erase_cons_head]
    | true =>
      rw [set_polling_true_of_pos st (by omega)]
      exact ⟨h1, h2, h3⟩

theorem wf_sources_length_le_one (st : PollCtx) (h : PollWF st) :
    st.loop.sources.length ≤ 1 := by
  obtain ⟨-, h2, -⟩ := h
  rw [h2]
  split_ifs <;> simp

/-- C6: setPolling is idempotent under the session well-formedness
invariant: enabling twice in a row leaves exactly one active
registration; disabling when polling is already disabled changes
nothing at all; and every setPolling call preserves well-formedness,
under which at most one registration exists at any time. -/
theorem c6_set_polling_idempotent (st : PollCtx) (h : PollWF st) :
    ((iio_buffer_accel_set_polling (iio_buffer_accel_set_polling st true) true).loop.sources.length = 1)
      ∧ (st.io_source = 0 → iio_buffer_accel_set_polling st false = st)
      ∧ (∀ state : Bool, PollWF (iio_buffer_accel_set_polling st state)
          ∧ (iio_buffer_accel_set_polling st state).loop.sources.length ≤ 1) := by
  obtain ⟨h1, h2, h3⟩ := h
  refine ⟨?_, fun hz => set_polling_false_of_zero st hz, ?_⟩
  · by_cases hz : st.io_source = 0
    · rw [set_polling_true_of_zero st hz]
      rw [set_polling_true_of_pos _ (show 0 < st.loop.next_id by omega)]
      show (st.loop.next_id :: st.loop.sources).length = 1
      rw [h2, if_pos hz]
      rfl
    · rw [set_polling_true_of_pos st (by omega), set_polling_true_of_pos st (by omega)]
      rw [h2, if_neg hz]
      rfl
  · intro state
    exact ⟨set_polling_preserves_wf st ⟨h1, h2, h3⟩ state,
      wf_sources_length_le_one _ (set_polling_preserves_wf st ⟨h1, h2, h3⟩ state)⟩

theorem c6_set_polling_idempotent_witness :
    ((iio_buffer_accel_set_polling
        (iio_buffer_accel_set_polling ⟨0, ⟨[], 1⟩⟩ true) true).loop.sources.length = 1)
      ∧ ((⟨0, ⟨[], 1⟩⟩ : PollCtx).io_source = 0 →
          iio_buffer_accel_set_polling ⟨0, ⟨[], 1⟩⟩ false = ⟨0, ⟨[], 1⟩⟩)
      ∧ (∀ state : Bool, PollWF (iio_buffer_accel_set_polling ⟨0, ⟨[], 1⟩⟩ state)
          ∧ (iio_buffer_accel_set_polling ⟨0, ⟨[], 1⟩⟩ state).loop.sources.length ≤ 1) :=
  c6_set_polling_idempotent ⟨0, ⟨[], 1⟩⟩ (by constructor <;> simp)

/-- Environment of one iio_buffer_accel_open call: the outcomes of the
external collaborators it consults, in program order. -/
structure OpenEnv where
  trigger_name : Option String
  buffer_data_ok : Bool
  stream_open_ok : Bool
  encoding_ok : Bool
  nonblock_ok : Bool
deriving DecidableEq, Repr

/-- Count of live allocations attributable to open, one counter per
resource kind: the DrvData block, the trigger-name string, the
BufferDrvData, the device reference, and the GIOChannel. -/
structure Allocs where
  drv_data : Nat
  trigger_name : Nat
  buffer_data : Nat
  dev_refs : Nat
  gio_channel : Nat
deriving DecidableEq, Repr

/-- Empty allocation state: no resource of any kind is held. -/
def Allocs.released : Allocs := ⟨0, 0, 0, 0, 0⟩

/-- Outcome of open. fatal models a g_error call: g_error logs at
G_LOG_LEVEL_ERROR, which is always fatal and aborts the process, so
control never returns to the caller and the code after the call is
unreachable. -/
inductive OpenResult where
  | success
  | failure
  | fatal
deriving DecidableEq, Repr

/-- Embedding of iio_buffer_accel_open
(src/drv-iio-buffer-accel.c lines 179-239). Returns the outcome, the
allocations still live when control leaves the function (for fatal, at
the abort point), and whether the global drv_data session pointer is
set on exit. Branches in program order: missing trigger frees drv_data
and fails; buffer negotiation runs, the trigger name is freed
unconditionally, and a refusal frees drv_data and fails; a stream-open
error reaches g_error, and a set_encoding error reaches g_error, both
fatal. A set_flags (non-blocking) failure only logs a warning. -/
def iio_buffer_accel_open (env : OpenEnv) : OpenResult × Allocs × Bool :=
  let a0 : Allocs := { drv_data := 1, trigger_name := 0, buffer_data := 0
                       dev_refs := 0, gio_channel := 0 }
  match env.trigger_name with
  | none => (.failure, { a0 with drv_data := 0 }, false)
  | some _ =>
    let a1 := { a0 with trigger_name := 1 }
    if ¬ env.buffer_data_ok then
      (.failure, { a1 with trigger_name := 0, drv_data := 0 }, false)
    else
      let a2 := { a1 with trigger_name := 0, buffer_data := 1 }
      let a3 := { a2 with dev_refs := 1 }
      if ¬ env.stream_open_ok then
        (.fatal, a3, true)
      else
        let a4 := { a3 with gio_channel := 1 }
        if ¬ env.encoding_ok then
          (.fatal, a4, true)
        else
          (.success, a4, true)

/-- C8: evaluation of the code on the three setup-failure environments.
For a missing trigger (NoTrigger) and for a refused buffer negotiation
(BufferNegotiationFailed) open returns failure with every partial
allocation released and no session left. But when the stream opens and
set_encoding fails (EncodingFailed), open does not return failure: the
g_error call is fatal and aborts the process while the session
allocations are still live, so the tear-down code after it never runs. -/
theorem c8_open_failure_paths :
    iio_buffer_accel_open ⟨none, true, true, true, true⟩ =
        (.failure, Allocs.released, false)
      ∧ iio_buffer_accel_open ⟨some "accel_3d-dev3", false, true, true, true⟩ =
          (.failure, Allocs.released, false)
      ∧ iio_buffer_accel_open ⟨some "accel_3d-dev3", true, true, false, true⟩ =
          (.fatal, ⟨1, 0, 1, 1, 1⟩, true) := by
  decide

/-- Availability-driven embedding of one read_orientation invocation:
the channel holds avail pending bytes; each g_io_channel_read_chars
call requests buf_size - read_size_ctr bytes and returns as many as are
pending, up to the request; the loop ends with G_IO_STATUS_AGAIN once
nothing is pending. The byte values themselves do not affect capture,
so chunks are modelled as zero-filled. The n = 0 guard is unreachable
while the counter invariant read_size_ctr < buf_size holds. -/
def loopAvail (buf_size : Nat) : Nat → ScanState → Nat → ScanState
  | 0, st, _ => st
  | fuel + 1, st, avail =>
    if avail = 0 then st
    else
      let n := min (buf_size - st.read_size_ctr) avail
      if n = 0 then st
      else loopAvail buf_size fuel (readStep buf_size st (List.replicate n 0)) (avail - n)

/-- The loop of one availability-driven invocation. Every iteration
that continues consumes at least one pending byte, so avail itself
bounds the number of iterations and serves as the structural fuel of
loopAvail. -/
def read_orientation_avail (buf_size : Nat) (st : ScanState) (avail : Nat) : ScanState :=
  loopAvail buf_size avail st avail

/-- Running a session: one read_orientation invocation per entry of
avails (the bytes pending at that readiness notification), starting
from the given value of the static counter. Returns the final counter
and, per invocation, whether the callback fired. -/
def sessionRun (buf_size : Nat) : Nat → List Nat → Nat × List Bool
  | ctr, [] => (ctr, [])
  | ctr, a :: rest =>
    let st := read_orientation_avail buf_size { read_size_ctr := ctr, data := none } a
    let r := sessionRun buf_size st.read_size_ctr rest
    (r.1, st.data.isSome :: r.2)

/-- The process state that outlives a driver session: read_size_ctr is
declared static inside read_orientation
(src/drv-iio-buffer-accel.c line 78), so it belongs to the process, not
to DrvData. -/
structure ProcState where
  read_size_ctr : Nat
deriving DecidableEq, Repr

/-- Embedding of iio_buffer_accel_close followed by a fresh
iio_buffer_accel_open on the process state: close frees every DrvData
resource and open allocates a fresh DrvData, but neither function
mentions read_size_ctr, so the static counter carries over unchanged
into the new session. -/
def closeThenOpen (p : ProcState) : ProcState :=
  { read_size_ctr := p.read_size_ctr }

/-- C9: counterexample. With record size 2, a first session whose only
invocation finds 1 pending byte fires no callback and leaves the static
counter at 1; close and a fresh open carry that counter over; the
second session, given an invocation with 2 pending bytes, fires no
callback, while the first session given the same 2-byte invocation
from its own fresh open fires one. The two sessions are therefore
distinguishable, refuting the claim. -/
theorem c9_close_open_not_indistinguishable :
    (sessionRun 2 0 [1]).1 = 1
      ∧ (sessionRun 2 (closeThenOpen ⟨(sessionRun 2 0 [1]).1⟩).read_size_ctr [2]).2 = [false]
      ∧ (sessionRun 2 0 [2]).2 = [true] := by
  decide

/-- C9 amended: close followed by a fresh open preserves the
process-global static counter; whenever the first session ends with the
counter at 0, the second session is indistinguishable from a fresh one:
it produces the same callback pattern and the same final counter on
every stimulus. -/
theorem c9_close_open_counter_zero (S : Nat) (avails1 avails2 : List Nat)
    (h : (sessionRun S 0 avails1).1 = 0) :
    sessionRun S (closeThenOpen ⟨(sessionRun S 0 avails1).1⟩).read_size_ctr avails2
      = sessionRun S 0 avails2 := by
  show sessionRun S (sessionRun S 0 avails1).1 avails2 = sessionRun S 0 avails2
  rw [h]

theorem c9_close_open_counter_zero_witness :
    sessionRun 2 (closeThenOpen ⟨(sessionRun 2 0 [2]).1⟩).read_size_ctr [1, 2]
      = sessionRun 2 0 [1, 2] :=
  c9_close_open_counter_zero 2 [2] [1, 2] (by decide)

end IIOBufferAccel
